import Mathlib

/-!
# Verification of the MaxScale read/write-split routing module

Shallow embedding of `src/server/modules/routing/readwritesplit/rwsplit_route_stmt.cc`.

Modelling conventions:
* A backend handle is identified by its position in the session's backend list
  (insertion order); the C++ shared-pointer references `current_master` and
  `target_node` become `Option Nat` indices into that list, and pointer equality
  becomes index equality.
* External oracles (the query classifier, the transaction-state tracker, the
  multi-statement detector, the temporary-table helpers and the outcome of a
  backend write or session-command execution) are modelled as input fields:
  the routing code only branches on their results.
* Enumerations and bit masks whose headers are not part of the source tree
  (`route_target_t`, `qc_query_type_t`, the `SERVER_IS_*` role macros and the
  replication-lag sentinels) are modelled from the spec as distinct bits
  respectively boolean role flags.
-/

set_option maxHeartbeats 1000000

/-! ## Route-target bitfield

Modelled from the spec: a route target combines a coarse role (ALL / PRIMARY /
SLAVE) with modifiers (NAMED_SERVER, RLAG_MAX); the exact numeric values are
not in `src/`, only their distinctness matters. -/

def TARGET_UNDEFINED : Nat := 0

def TARGET_MASTER : Nat := 1

def TARGET_SLAVE : Nat := 2

def TARGET_NAMED_SERVER : Nat := 4

def TARGET_ALL : Nat := 8

def TARGET_RLAG_MAX : Nat := 16

/-! ## Query-type bit flags

Modelled from the spec (classifier contract, spec section 6): `qtype` is a bit
field; the flags below are the ones this module consumes. -/

def QUERY_TYPE_UNKNOWN : Nat := 0

def QUERY_TYPE_READ : Nat := 2

def QUERY_TYPE_WRITE : Nat := 4

def QUERY_TYPE_MASTER_READ : Nat := 8

def QUERY_TYPE_SESSION_WRITE : Nat := 16

def QUERY_TYPE_USERVAR_WRITE : Nat := 32

def QUERY_TYPE_USERVAR_READ : Nat := 64

def QUERY_TYPE_SYSVAR_READ : Nat := 128

def QUERY_TYPE_GSYSVAR_READ : Nat := 256

def QUERY_TYPE_GSYSVAR_WRITE : Nat := 512

def QUERY_TYPE_BEGIN_TRX : Nat := 1024

def QUERY_TYPE_ENABLE_AUTOCOMMIT : Nat := 2048

def QUERY_TYPE_DISABLE_AUTOCOMMIT : Nat := 4096

def QUERY_TYPE_ROLLBACK : Nat := 8192

def QUERY_TYPE_COMMIT : Nat := 16384

def QUERY_TYPE_PREPARE_NAMED_STMT : Nat := 32768

def QUERY_TYPE_PREPARE_STMT : Nat := 65536

def QUERY_TYPE_EXEC_STMT : Nat := 131072

def QUERY_TYPE_CREATE_TMP_TABLE : Nat := 262144

def QUERY_TYPE_READ_TMP_TABLE : Nat := 524288

def QUERY_TYPE_SHOW_TABLES : Nat := 2097152

/-- Modelled from the spec (classifier contract): a query-type mask contains a
flag when all of the flag's bits are set in the mask. -/
def qc_query_is_type (mask t : Nat) : Bool := (mask &&& t) == t

/-! ## Replication-lag sentinels

Modelled from the spec: replication lag is "seconds or sentinel unknown", the
bound is optional.  The two sentinels are distinct negative integers; their
exact numerals are not in `src/`. -/

def MAX_RLAG_UNDEFINED : Int := -2

def MAX_RLAG_NOT_AVAILABLE : Int := -1

/-! ## Enumerations -/

inductive backend_type_t
  | BE_MASTER
  | BE_SLAVE
  | BE_UNDEFINED
deriving DecidableEq, BEq

inductive load_data_state_t
  | LOAD_DATA_INACTIVE
  | LOAD_DATA_START
  | LOAD_DATA_ACTIVE
  | LOAD_DATA_END
deriving DecidableEq, BEq

inductive failure_mode
  | RW_FAIL_INSTANTLY
  | RW_FAIL_ON_WRITE
  | RW_ERROR_ON_WRITE
deriving DecidableEq, BEq

/-- Modelled from the spec: `use_sql_variables_in` is `primary` or `all`. -/
inductive mxs_target_t
  | TYPE_MASTER
  | TYPE_ALL
deriving DecidableEq, BEq

/-- Modelled from the spec: the MySQL command byte of a packet; only the
commands this module distinguishes are enumerated. -/
inductive mysql_server_cmd
  | MYSQL_COM_QUIT
  | MYSQL_COM_STMT_SEND_LONG_DATA
  | MYSQL_COM_STMT_CLOSE
  | MYSQL_COM_QUERY
  | MYSQL_COM_STMT_PREPARE
  | MYSQL_COM_OTHER
deriving DecidableEq, BEq

/-- Routing hints attached to a request buffer (hint-parser contract, spec
section 6).  A `parameter` hint carries its key string and its already-parsed
integer value. -/
inductive HINT
  | routeToMaster
  | routeToSlave
  | routeToNamedServer (data : String)
  | routeToUptodateServer
  | routeToAll
  | parameter (data : String) (value : Int)
deriving DecidableEq, BEq

/-! ## Data model -/

/-- Monitor-published view of one server (spec section 3): role flags, lag and
replication depth.  The `SERVER_IS_*` status macros are modelled from the spec
as boolean role flags. -/
structure SERVER where
  unique_name : String
  master : Bool
  slave : Bool
  relay : Bool
  rlag : Int
  depth : Int
deriving DecidableEq, BEq

def SERVER_IS_MASTER (sv : SERVER) : Bool := sv.master

def SERVER_IS_SLAVE (sv : SERVER) : Bool := sv.slave

def SERVER_IS_RELAY_SERVER (sv : SERVER) : Bool := sv.relay

/-- A backend handle.  `sescmd_queue` is the per-backend queue of pending
session-command positions.  `execOk` and `writeOk` are the oracle outcomes of
`Backend::execute_session_command` and `Backend::write` for this backend
(external to `src/`; the router only branches on them).  `critval` is the
backend's value under the configured selection criterion (the external
`criteria_cmpfun` total order, modelled from the spec by value). -/
structure Backend where
  server : SERVER
  in_use : Bool
  active : Bool
  sescmd_queue : List Nat
  execOk : Bool
  writeOk : Bool
  critval : Int
deriving DecidableEq, BEq

/-- Frozen per-session routing configuration (spec section 3). -/
structure Config where
  use_sql_variables_in : mxs_target_t
  master_accept_reads : Bool
  strict_multi_stmt : Bool
  retry_failed_reads : Bool
  disable_sescmd_history : Bool
  max_sescmd_history : Nat
  max_slave_replication_lag : Int
  master_failure_mode : failure_mode
deriving DecidableEq, BEq

/-- The router session (`ROUTER_CLIENT_SES`).  `current_master` and
`target_node` are indices into `backends`.  `trx_active`, `trx_read_only` and
`trx_ending` are the session-layer transaction-state oracles.
`sescmd_responses` models the response map by its key set.
`readonly_error_sent` records that a synthetic read-only error packet was
emitted to the client. -/
structure RSes where
  backends : List Backend
  current_master : Option Nat
  target_node : Option Nat
  sescmd_count : Nat
  expected_responses : Int
  sent_sescmd : Nat
  sescmd_list : List Nat
  sescmd_responses : List Nat
  load_data_state : load_data_state_t
  rses_load_data_sent : Nat
  have_tmp_tables : Bool
  trx_active : Bool
  trx_read_only : Bool
  trx_ending : Bool
  readonly_error_sent : Bool
  rses_config : Config
deriving DecidableEq, BEq

/-- Classifier/decoder view of one client request (external contracts, spec
section 6): emptiness, multi-statement detection, packet kind, the LOAD
operation flag, the temporary-table oracle results, the query-type mask, the
hint chain, the command byte and the buffer length. -/
structure Packet where
  non_empty : Bool
  is_multi : Bool
  is_query : Bool
  op_is_load : Bool
  is_read_tmp : Bool
  creates_tmp : Bool
  qtype : Nat
  hints : List HINT
  cmd : mysql_server_cmd
  buflen : Nat
deriving DecidableEq, BEq

/-! ## String helpers (for `strcasecmp` / `strncasecmp`) -/

def lowerChar (c : Char) : Char := c.toLower

def ciEqList : List Char → List Char → Bool
  | [], [] => true
  | a :: as, b :: bs => (lowerChar a == lowerChar b) && ciEqList as bs
  | _, _ => false

/-- Case-insensitive string equality (`strcasecmp(a, b) == 0`). -/
def strCaseEq (a b : String) : Bool := ciEqList a.data b.data

def ciPrefixOf : List Char → List Char → Bool
  | [], _ => true
  | _ :: _, [] => false
  | p :: ps, c :: cs => (lowerChar p == lowerChar c) && ciPrefixOf ps cs

/-- Case-insensitive prefix test: `strncasecmp(s, pre, strlen(pre)) == 0`. -/
def startsWithCI (pre s : String) : Bool := ciPrefixOf pre.data s.data

def msrl_key : String := "max_slave_replication_lag"

/-! ## Backend selector (`get_target_backend` and helpers) -/

/-- Modelled from the spec: the configured selection criterion is a total
order supplied by configuration; `criteria_cmpfun[sc]` compares two backends
by their criterion value (positive when the first is worse). -/
def critCmp (a b : Backend) : Int := a.critval - b.critval

/-- `check_candidate_bref` (lines 48-68): keep the backend with the smaller
selection-criterion value; `cand` wins ties and `NULL` arguments lose. -/
def check_candidate_bref (cand nb : Option (Nat × Backend)) : Option (Nat × Backend) :=
  match nb, cand with
  | none, _ => cand
  | some _, none => nb
  | some ib, some cb => if critCmp cb.2 ib.2 > 0 then nb else cand

/-- The replication-lag admission test used three times inside
`get_target_backend`: no bound is set, or the lag is known and within it. -/
def lagOK (max_rlag : Int) (b : Backend) : Bool :=
  max_rlag == MAX_RLAG_UNDEFINED ||
    (b.server.rlag != MAX_RLAG_NOT_AVAILABLE && decide (b.server.rlag ≤ max_rlag))

/-- The `BE_SLAVE` candidate loop of `get_target_backend` (lines 372-459),
over the backend list paired with insertion indices. -/
def slave_scan (mar : Bool) (cm : Option Nat) (max_rlag : Int) :
    List (Nat × Backend) → Option (Nat × Backend) → Option (Nat × Backend)
  | [], cand => cand
  | ib :: rest, cand =>
    if !(ib.2.in_use && ib.2.active &&
          (SERVER_IS_MASTER ib.2.server || SERVER_IS_SLAVE ib.2.server)) then
      slave_scan mar cm max_rlag rest cand
    else
      match cand with
      | none =>
        if SERVER_IS_MASTER ib.2.server && cm == some ib.1 then
          slave_scan mar cm max_rlag rest (some ib)
        else if lagOK max_rlag ib.2 then
          slave_scan mar cm max_rlag rest (some ib)
        else
          slave_scan mar cm max_rlag rest none
      | some cb =>
        if SERVER_IS_MASTER cb.2.server && SERVER_IS_SLAVE ib.2.server &&
            lagOK max_rlag ib.2 && !mar then
          slave_scan mar cm max_rlag rest (some ib)
        else if SERVER_IS_SLAVE ib.2.server || (mar && SERVER_IS_MASTER ib.2.server) then
          if lagOK max_rlag ib.2 then
            slave_scan mar cm max_rlag rest (check_candidate_bref (some cb) (some ib))
          else
            slave_scan mar cm max_rlag rest cand
        else
          slave_scan mar cm max_rlag rest cand

/-- The scan inside `get_root_master_bref` (lines 1135-1171): first in-use
backend flagged master with the strictly smallest replication depth. -/
def root_master_scan : List (Nat × Backend) → Option (Nat × Backend) → Option (Nat × Backend)
  | [], cand => cand
  | ib :: rest, cand =>
    if ib.2.in_use && SERVER_IS_MASTER ib.2.server then
      match cand with
      | none => root_master_scan rest (some ib)
      | some cb =>
        if decide (ib.2.server.depth < cb.2.server.depth) then
          root_master_scan rest (some ib)
        else
          root_master_scan rest cand
    else
      root_master_scan rest cand

def get_root_master_bref (s : RSes) : Option (Nat × Backend) :=
  root_master_scan s.backends.enum none

/-- The by-name search of `get_target_backend` (lines 346-370): first in-use,
active backend whose unique name matches case-insensitively and which is a
slave, relay server or master. -/
def name_scan (nm : String) : List (Nat × Backend) → Option Nat
  | [] => none
  | ib :: rest =>
    if ib.2.in_use && ib.2.active && strCaseEq nm ib.2.server.unique_name &&
        (SERVER_IS_SLAVE ib.2.server || SERVER_IS_RELAY_SERVER ib.2.server ||
         SERVER_IS_MASTER ib.2.server) then
      some ib.1
    else
      name_scan nm rest

/-- The `BE_MASTER` tail of `get_target_backend` (lines 472-505): the root
master qualifies only if still active, in use and flagged master. -/
def master_check : Option (Nat × Backend) → Option Nat
  | none => none
  | some ib =>
    if ib.2.active then
      if ib.2.in_use then
        if SERVER_IS_MASTER ib.2.server then some ib.1 else none
      else none
    else none

/-- `get_target_backend` (lines 327-508).  Returns the index of the chosen
backend, `none` on failure (in the C code: the boolean result, with the
handle in an out-parameter that is written only on success). -/
def get_target_backend (s : RSes) (btype : backend_type_t) (name : Option String)
    (max_rlag : Int) : Option Nat :=
  if s.target_node.isSome && s.trx_read_only then
    s.target_node
  else
    let found :=
      match name with
      | some nm => name_scan nm s.backends.enum
      | none => none
    match found with
    | some i => some i
    | none =>
      let btype2 := if name.isSome then backend_type_t.BE_SLAVE else btype
      match btype2 with
      | backend_type_t.BE_SLAVE =>
        (slave_scan s.rses_config.master_accept_reads s.current_master max_rlag
            s.backends.enum none).map Prod.fst
      | backend_type_t.BE_MASTER => master_check (get_root_master_bref s)
      | backend_type_t.BE_UNDEFINED => none

/-! ## Route-target resolver (`get_route_target`) -/

/-- The hint-processing loop of `get_route_target` (lines 649-701). -/
def process_hints : Nat → List HINT → Nat
  | t, [] => t
  | _, HINT.routeToMaster :: _ => TARGET_MASTER
  | t, HINT.routeToNamedServer _ :: rest => process_hints (t ||| TARGET_NAMED_SERVER) rest
  | t, HINT.routeToUptodateServer :: rest => process_hints t rest
  | t, HINT.routeToAll :: rest => process_hints t rest
  | t, HINT.parameter d _ :: rest =>
    if startsWithCI msrl_key d then process_hints (t ||| TARGET_RLAG_MAX) rest
    else process_hints t rest
  | _, HINT.routeToSlave :: rest => process_hints TARGET_SLAVE rest

/-- `get_route_target` (lines 521-704). -/
def get_route_target (s : RSes) (qtype : Nat) (hints : List HINT) : Nat :=
  let load_active := s.load_data_state != load_data_state_t.LOAD_DATA_INACTIVE
  let usv := s.rses_config.use_sql_variables_in
  let base : Nat :=
    if s.target_node.isSome && s.target_node == s.current_master then
      TARGET_MASTER
    else if !load_active &&
        (qc_query_is_type qtype QUERY_TYPE_SESSION_WRITE ||
         (usv == mxs_target_t.TYPE_ALL && qc_query_is_type qtype QUERY_TYPE_USERVAR_WRITE) ||
         qc_query_is_type qtype QUERY_TYPE_GSYSVAR_WRITE ||
         qc_query_is_type qtype QUERY_TYPE_ENABLE_AUTOCOMMIT ||
         qc_query_is_type qtype QUERY_TYPE_DISABLE_AUTOCOMMIT) then
      (if qc_query_is_type qtype QUERY_TYPE_READ &&
          !(qc_query_is_type qtype QUERY_TYPE_PREPARE_STMT ||
            qc_query_is_type qtype QUERY_TYPE_PREPARE_NAMED_STMT) then
        TARGET_MASTER
      else
        TARGET_UNDEFINED) ||| TARGET_ALL
    else if !s.trx_active && !load_active &&
        !qc_query_is_type qtype QUERY_TYPE_MASTER_READ &&
        !qc_query_is_type qtype QUERY_TYPE_WRITE &&
        !qc_query_is_type qtype QUERY_TYPE_PREPARE_STMT &&
        !qc_query_is_type qtype QUERY_TYPE_PREPARE_NAMED_STMT &&
        (qc_query_is_type qtype QUERY_TYPE_READ ||
         qc_query_is_type qtype QUERY_TYPE_SHOW_TABLES ||
         qc_query_is_type qtype QUERY_TYPE_USERVAR_READ ||
         qc_query_is_type qtype QUERY_TYPE_SYSVAR_READ ||
         qc_query_is_type qtype QUERY_TYPE_GSYSVAR_READ) then
      let t1 :=
        if qc_query_is_type qtype QUERY_TYPE_USERVAR_READ then
          (if usv == mxs_target_t.TYPE_ALL then TARGET_SLAVE else TARGET_UNDEFINED)
        else if qc_query_is_type qtype QUERY_TYPE_READ ||
            qc_query_is_type qtype QUERY_TYPE_SHOW_TABLES ||
            qc_query_is_type qtype QUERY_TYPE_SYSVAR_READ ||
            qc_query_is_type qtype QUERY_TYPE_GSYSVAR_READ then
          TARGET_SLAVE
        else
          TARGET_UNDEFINED
      if (t1 &&& (TARGET_ALL ||| TARGET_SLAVE ||| TARGET_MASTER)) == 0 then TARGET_MASTER
      else t1
    else if s.trx_read_only then
      TARGET_SLAVE
    else
      TARGET_MASTER
  process_hints base hints

/-! ## Session-write path (`route_session_write`) -/

/-- Modelled from the spec (section 4.4, step 5): the external
`command_will_respond` helper — a command awaits a response unless it is quit,
stmt-send-long-data or stmt-close. -/
def command_will_respond (c : mysql_server_cmd) : Bool :=
  c != mysql_server_cmd.MYSQL_COM_QUIT &&
  c != mysql_server_cmd.MYSQL_COM_STMT_SEND_LONG_DATA &&
  c != mysql_server_cmd.MYSQL_COM_STMT_CLOSE

/-- The backend loop of `route_session_write` (lines 244-279).  Arguments
after the list: running `expected_responses`, success count and lowest pending
position; returns the updated backend list together with the three counters. -/
def rsw_go (id : Nat) (expecting : Bool) :
    List Backend → Int → Nat → Nat → (List Backend × Int × Nat × Nat)
  | [], er, n, low => ([], er, n, low)
  | b :: rest, er, n, low =>
    if b.in_use then
      let b2 : Backend := { b with sescmd_queue := b.sescmd_queue ++ [id] }
      let cur := b2.sescmd_queue.headD id
      let low2 := if cur < low then cur else low
      let er2 := if b.execOk && expecting then er + 1 else er
      let n2 := if b.execOk then n + 1 else n
      let r := rsw_go id expecting rest er2 n2 low2
      (b2 :: r.1, r.2)
    else
      let r := rsw_go id expecting rest er n low
      (b :: r.1, r.2)

/-- The response-map pruning of `route_session_write` (lines 293-302): erase
the keys below `low`, but only when `lower_bound(low)` is not `end()`. -/
def prune_responses (m : List Nat) (low : Nat) : List Nat :=
  if m.any (fun k => decide (low ≤ k)) then m.filter (fun k => decide (low ≤ k)) else m

/-- The history-bound enforcement of `route_session_write` (lines 281-291):
when a positive bound has been reached, disable the history, zero the bound
and clear the session-command log. -/
def rsw_history_bound (s1 : RSes) : RSes :=
  if 0 < s1.rses_config.max_sescmd_history ∧
      s1.rses_config.max_sescmd_history ≤ s1.sescmd_count then
    { s1 with
      rses_config :=
        { s1.rses_config with disable_sescmd_history := true, max_sescmd_history := 0 },
      sescmd_list := [] }
  else s1

/-- The store-or-prune step of `route_session_write` (lines 293-306). -/
def rsw_store (id lowest : Nat) (s2 : RSes) : RSes :=
  if s2.rses_config.disable_sescmd_history then
    { s2 with sescmd_responses := prune_responses s2.sescmd_responses lowest }
  else
    { s2 with sescmd_list := s2.sescmd_list ++ [id] }

/-- The final `sent_sescmd` update of `route_session_write` (lines 308-311). -/
def rsw_mark_sent (id : Nat) (nsucc : Nat) (s3 : RSes) : RSes :=
  if nsucc ≠ 0 then { s3 with sent_sescmd := id } else s3

/-- `route_session_write` (lines 233-314). -/
def route_session_write (s : RSes) (command : mysql_server_cmd) : Bool × RSes :=
  let id := s.sescmd_count
  let r := rsw_go id (command_will_respond command) s.backends s.expected_responses 0 id
  (r.2.2.1 != 0,
   rsw_mark_sent id r.2.2.1 (rsw_store id r.2.2.2 (rsw_history_bound
     { s with sescmd_count := id + 1, backends := r.1, expected_responses := r.2.1 })))

/-! ## Per-statement orchestration -/

/-- `handle_multi_temp_and_load` (lines 716-800).  The external helpers
(`check_for_multi_stmt`, `is_read_tmp_table`, `check_create_tmp_table`,
`qc_get_operation`) enter through the corresponding `Packet` oracle fields;
`check_drop_tmp_table` only shrinks the external table-name set and has no
modelled state. -/
def handle_multi_temp_and_load (s : RSes) (p : Packet) : Nat × RSes :=
  let qs1 : Nat × RSes :=
    if (s.target_node == none || s.target_node != s.current_master) && p.is_multi then
      match s.current_master with
      | some _ => (p.qtype, { s with target_node := s.current_master })
      | none => (p.qtype ||| QUERY_TYPE_WRITE, s)
    else (p.qtype, s)
  let qt2 :=
    if qs1.2.have_tmp_tables && p.is_query && p.is_read_tmp then
      qs1.1 ||| QUERY_TYPE_MASTER_READ
    else qs1.1
  let s3 := if p.creates_tmp then { qs1.2 with have_tmp_tables := true } else qs1.2
  let s4 :=
    if s3.load_data_state == load_data_state_t.LOAD_DATA_ACTIVE then
      { s3 with rses_load_data_sent := s3.rses_load_data_sent + p.buflen }
    else if p.is_query && p.op_is_load then
      { s3 with load_data_state := load_data_state_t.LOAD_DATA_START, rses_load_data_sent := 0 }
    else s3
  (qt2, s4)

/-- The hint fold of `handle_hinted_target` (lines 823-848): the last named
server and the last `max_slave_replication_lag` parameter value win. -/
def hinted_scan : List HINT → Option String → Int → (Option String × Int)
  | [], nm, rl => (nm, rl)
  | HINT.routeToNamedServer d :: rest, _, rl => hinted_scan rest (some d) rl
  | HINT.parameter d v :: rest, nm, rl =>
    if startsWithCI msrl_key d then hinted_scan rest nm v else hinted_scan rest nm rl
  | _ :: rest, nm, rl => hinted_scan rest nm rl

/-- Modelled from the spec (section 4.4): the configured maximum replication
lag, with 0 meaning unbounded. -/
def rses_get_max_replication_lag (s : RSes) : Int :=
  if 0 < s.rses_config.max_slave_replication_lag then s.rses_config.max_slave_replication_lag
  else MAX_RLAG_UNDEFINED

/-- `handle_hinted_target` (lines 814-880). -/
def handle_hinted_target (s : RSes) (rt : Nat) (hints : List HINT) : Option Nat :=
  let nr := hinted_scan hints none MAX_RLAG_UNDEFINED
  let rlag := if nr.2 == MAX_RLAG_UNDEFINED then rses_get_max_replication_lag s else nr.2
  let btype :=
    if (rt &&& TARGET_SLAVE) != 0 then backend_type_t.BE_SLAVE else backend_type_t.BE_MASTER
  get_target_backend s btype nr.1 rlag

/-- `handle_slave_is_target` (lines 893-911). -/
def handle_slave_is_target (s : RSes) : Option Nat :=
  get_target_backend s backend_type_t.BE_SLAVE none (rses_get_max_replication_lag s)

/-- `Backend::close` on the backend at index `i` (external to `src/`;
modelled from the spec as marking the handle no longer in use). -/
def close_at : Nat → List Backend → List Backend
  | _, [] => []
  | 0, b :: rest => { b with in_use := false } :: rest
  | n + 1, b :: rest => b :: close_at n rest

/-- Modelled from the spec (section 6, wire compatibility): the external
`send_readonly_error` emits a synthetic read-only error packet to the client
and reports success. -/
def send_readonly_error (s : RSes) : Bool × RSes :=
  (true, { s with readonly_error_sent := true })

/-- `handle_master_is_target` (lines 982-1012).  The middle component is the
target out-parameter as far as the caller can observe it (written only when
the selector succeeded). -/
def handle_master_is_target (s : RSes) : Bool × Option Nat × RSes :=
  let tgt := get_target_backend s backend_type_t.BE_MASTER none MAX_RLAG_UNDEFINED
  if tgt.isSome && tgt == s.current_master then
    (true, tgt, s)
  else if s.rses_config.master_failure_mode == failure_mode.RW_ERROR_ON_WRITE then
    let e := send_readonly_error s
    let s2 :=
      match s.current_master with
      | some ci =>
        if ((e.2.backends.get? ci).map Backend.in_use) == some true then
          { e.2 with backends := close_at ci e.2.backends }
        else e.2
      | none => e.2
    (e.1, tgt, s2)
  else
    (false, tgt, s)

/-- `query_creates_reply` (lines 1014-1019). -/
def query_creates_reply (cmd : mysql_server_cmd) : Bool :=
  cmd != mysql_server_cmd.MYSQL_COM_QUIT &&
  cmd != mysql_server_cmd.MYSQL_COM_STMT_SEND_LONG_DATA &&
  cmd != mysql_server_cmd.MYSQL_COM_STMT_CLOSE

/-- The read-only-transaction pinning at the top of `handle_got_target`
(lines 1041-1047): an unset forced node is set to the chosen target when the
transaction is read-only. -/
def hgt_pin (s : RSes) (i : Nat) : RSes :=
  if s.target_node == none && s.trx_read_only then { s with target_node := some i } else s

/-- The response expectation of `handle_got_target` (lines 1062-1069). -/
def hgt_response (s1 : RSes) (p : Packet) : Bool :=
  (s1.load_data_state != load_data_state_t.LOAD_DATA_ACTIVE) && query_creates_reply p.cmd

/-- The response tracking of `handle_got_target` (lines 1080-1102):
`expected_responses` and the load-data transitions, applied only when a reply
is expected. -/
def hgt_track (s1 : RSes) (re : Bool) : RSes :=
  if re then
    let sA := { s1 with expected_responses := s1.expected_responses + 1 }
    if sA.load_data_state == load_data_state_t.LOAD_DATA_START then
      { sA with load_data_state := load_data_state_t.LOAD_DATA_ACTIVE }
    else if sA.load_data_state == load_data_state_t.LOAD_DATA_END then
      { sA with load_data_state := load_data_state_t.LOAD_DATA_INACTIVE }
    else sA
  else s1

/-- The forced-node clearing at the bottom of `handle_got_target`
(lines 1104-1113): the forced node is reset when the read-only transaction is
ending. -/
def hgt_unpin (s2 : RSes) : RSes :=
  if s2.target_node.isSome && s2.trx_read_only && s2.trx_ending then
    { s2 with target_node := none }
  else s2

/-- The write-and-track part of `handle_got_target` after the pinning step
(lines 1049-1121). -/
def hgt_after_pin (s1 : RSes) (p : Packet) (i : Nat) : Bool × RSes :=
  match s1.backends.get? i with
  | none => (false, s1)
  | some b =>
    if b.writeOk then (true, hgt_unpin (hgt_track s1 (hgt_response s1 p)))
    else (false, s1)

/-- `handle_got_target` (lines 1033-1121).  The external `Backend::write`
outcome is the backend's `writeOk` oracle; `session_store_stmt` only feeds the
external retry stash and has no modelled state. -/
def handle_got_target (s : RSes) (p : Packet) (i : Nat) : Bool × RSes :=
  hgt_after_pin (hgt_pin s i) p i

/-- The target-resolution phase of `route_single_stmt` (lines 110-159): for a
non-empty packet, classification effects and the route-target resolver; for an
empty packet, the LOAD DATA LOCAL INFILE terminator handling (target is the
master and the load state moves to `END`, with no classification and no hint
processing). -/
def route_target_phase (s : RSes) (p : Packet) : Nat × RSes :=
  if p.non_empty then
    let qs := handle_multi_temp_and_load s p
    (get_route_target qs.2 qs.1 p.hints, qs.2)
  else
    (TARGET_MASTER, { s with load_data_state := load_data_state_t.LOAD_DATA_END })

/-- The selection step of the non-broadcast dispatch of `route_single_stmt`
(lines 169-195): hinted target, slave target or master target, the master
case followed by the relaxed multi-statement forced-node reset of lines
189-194.  Result: the success flag, the target out-parameter as observable by
the caller, and the session state. -/
def rss_select (s1 : RSes) (p : Packet) (rt : Nat) : Bool × Option Nat × RSes :=
  if (rt &&& TARGET_NAMED_SERVER) != 0 || (rt &&& TARGET_RLAG_MAX) != 0 then
    ((handle_hinted_target s1 rt p.hints).isSome, handle_hinted_target s1 rt p.hints, s1)
  else if (rt &&& TARGET_SLAVE) != 0 then
    ((handle_slave_is_target s1).isSome, handle_slave_is_target s1, s1)
  else if (rt &&& TARGET_MASTER) != 0 then
    ((handle_master_is_target s1).1, (handle_master_is_target s1).2.1,
      if !(handle_master_is_target s1).2.2.rses_config.strict_multi_stmt &&
          ((handle_master_is_target s1).2.2.target_node ==
            (handle_master_is_target s1).2.2.current_master) then
        { (handle_master_is_target s1).2.2 with target_node := none }
      else (handle_master_is_target s1).2.2)
  else (false, none, s1)

/-- The forwarding step after selection (lines 197-201): when a target handle
was assigned and selection succeeded, `handle_got_target` runs — its return
value ignored by the caller (line 200); otherwise nothing is forwarded. -/
def rss_after_select (s2 : RSes) (p : Packet) (succp : Bool) (tgt : Option Nat) :
    Bool × Option Nat × RSes :=
  match tgt, succp with
  | some i, true => (true, some i, (handle_got_target s2 p i).2)
  | _, _ => (succp, none, s2)

/-- The dispatch block of `route_single_stmt` (lines 161-202): the broadcast
path for an ALL target, otherwise selection followed by the forwarding
step. -/
def rss_dispatch (s1 : RSes) (p : Packet) (rt : Nat) : Bool × Option Nat × RSes :=
  if (rt &&& TARGET_ALL) != 0 then
    ((route_session_write s1 p.cmd).1, none, (route_session_write s1 p.cmd).2)
  else
    rss_after_select (rss_select s1 p rt).2.2 p (rss_select s1 p rt).1 (rss_select s1 p rt).2.1

/-- `route_single_stmt` (lines 110-211).  Returns the routing success flag,
the single backend the statement was written to (`none` for the broadcast
path and for failures) and the final session state.  `handle_target_is_all`
is not in `src/`; it is modelled from the spec (section 4.4, step 4: the ALL
target routes through the session-command write path).  The keep-alive pass
(lines 204-208) sends ignorable pings only and touches no modelled state. -/
def route_single_stmt (s : RSes) (p : Packet) : Bool × Option Nat × RSes :=
  rss_dispatch (route_target_phase s p).2 p (route_target_phase s p).1

/-! ## Claim-side and amended formulations

These definitions follow the wording of the specification sentences under
scrutiny (never the C code) so that refinement claims can be compared against
the embedding above. -/

/-- The replica-selection scan exactly as the claim words it: the first in-use
active primary-or-replica handle that either is the session's current primary
or is a replica within the lag bound becomes the candidate; a primary
candidate is replaced by a qualifying replica when `master_accept_reads` is
false; a replica candidate and a qualifying replica challenger compete on the
criterion value, the earlier-inserted handle winning ties. -/
def claim_replica_scan (mar : Bool) (cm : Option Nat) (max_rlag : Int) :
    List (Nat × Backend) → Option (Nat × Backend) → Option (Nat × Backend)
  | [], cand => cand
  | ib :: rest, cand =>
    if !(ib.2.in_use && ib.2.active &&
          (SERVER_IS_MASTER ib.2.server || SERVER_IS_SLAVE ib.2.server)) then
      claim_replica_scan mar cm max_rlag rest cand
    else
      match cand with
      | none =>
        if cm == some ib.1 || (SERVER_IS_SLAVE ib.2.server && lagOK max_rlag ib.2) then
          claim_replica_scan mar cm max_rlag rest (some ib)
        else
          claim_replica_scan mar cm max_rlag rest none
      | some cb =>
        if SERVER_IS_MASTER cb.2.server && SERVER_IS_SLAVE ib.2.server &&
            lagOK max_rlag ib.2 && !mar then
          claim_replica_scan mar cm max_rlag rest (some ib)
        else if SERVER_IS_SLAVE cb.2.server && SERVER_IS_SLAVE ib.2.server &&
            lagOK max_rlag ib.2 then
          claim_replica_scan mar cm max_rlag rest
            (if decide (ib.2.critval < cb.2.critval) then some ib else some cb)
        else
          claim_replica_scan mar cm max_rlag rest cand

/-- The replica-selection scan as the counterexample forces it to be amended:
with no candidate yet, the current primary is accepted outright and any other
in-scan handle is accepted by the lag test alone (also one flagged primary);
a challenger that is a replica — or a primary while `master_accept_reads` —
and within the lag bound competes on the criterion value, the earlier handle
winning ties, unless the primary-candidate replacement rule fired first. -/
def amended_replica_scan (mar : Bool) (cm : Option Nat) (max_rlag : Int) :
    List (Nat × Backend) → Option (Nat × Backend) → Option (Nat × Backend)
  | [], cand => cand
  | ib :: rest, cand =>
    if !(ib.2.in_use && ib.2.active &&
          (SERVER_IS_MASTER ib.2.server || SERVER_IS_SLAVE ib.2.server)) then
      amended_replica_scan mar cm max_rlag rest cand
    else
      match cand with
      | none =>
        if (SERVER_IS_MASTER ib.2.server && cm == some ib.1) || lagOK max_rlag ib.2 then
          amended_replica_scan mar cm max_rlag rest (some ib)
        else
          amended_replica_scan mar cm max_rlag rest none
      | some cb =>
        if SERVER_IS_MASTER cb.2.server && SERVER_IS_SLAVE ib.2.server &&
            lagOK max_rlag ib.2 && !mar then
          amended_replica_scan mar cm max_rlag rest (some ib)
        else if (SERVER_IS_SLAVE ib.2.server || (mar && SERVER_IS_MASTER ib.2.server)) &&
            lagOK max_rlag ib.2 then
          amended_replica_scan mar cm max_rlag rest
            (if decide (ib.2.critval < cb.2.critval) then some ib else some cb)
        else
          amended_replica_scan mar cm max_rlag rest cand

/-- One hint-processing step exactly as the claim words it: processing stops
after a route-to-primary hint; a parameter hint changes the target only when
its key is `max_slave_replication_lag`. -/
def claim_hint_step (tb : Nat × Bool) (h : HINT) : Nat × Bool :=
  if tb.2 then tb
  else
    match h with
    | HINT.routeToMaster => (TARGET_MASTER, true)
    | HINT.routeToNamedServer _ => (tb.1 ||| TARGET_NAMED_SERVER, false)
    | HINT.routeToSlave => (TARGET_SLAVE, false)
    | HINT.routeToUptodateServer => (tb.1, false)
    | HINT.routeToAll => (tb.1, false)
    | HINT.parameter d _ =>
      (if d == msrl_key then tb.1 ||| TARGET_RLAG_MAX else tb.1, false)

def claim_process_hints (t : Nat) (hs : List HINT) : Nat :=
  (hs.foldl claim_hint_step (t, false)).1

/-- One hint-processing step as the counterexample forces it to be amended:
a parameter hint changes the target whenever its key merely begins,
case-insensitively, with `max_slave_replication_lag`. -/
def amended_hint_step (tb : Nat × Bool) (h : HINT) : Nat × Bool :=
  if tb.2 then tb
  else
    match h with
    | HINT.routeToMaster => (TARGET_MASTER, true)
    | HINT.routeToNamedServer _ => (tb.1 ||| TARGET_NAMED_SERVER, false)
    | HINT.routeToSlave => (TARGET_SLAVE, false)
    | HINT.routeToUptodateServer => (tb.1, false)
    | HINT.routeToAll => (tb.1, false)
    | HINT.parameter d _ =>
      (if startsWithCI msrl_key d then tb.1 ||| TARGET_RLAG_MAX else tb.1, false)

def amended_process_hints (t : Nat) (hs : List HINT) : Nat :=
  (hs.foldl amended_hint_step (t, false)).1

/-! ## Concrete sessions used by witnesses and counterexamples -/

def cfg0 : Config :=
  { use_sql_variables_in := mxs_target_t.TYPE_MASTER, master_accept_reads := false,
    strict_multi_stmt := false, retry_failed_reads := false,
    disable_sescmd_history := false, max_sescmd_history := 0,
    max_slave_replication_lag := 0, master_failure_mode := failure_mode.RW_FAIL_INSTANTLY }

def srv (nm : String) (m sl : Bool) : SERVER :=
  { unique_name := nm, master := m, slave := sl, relay := false, rlag := 0, depth := 0 }

def bk (sv : SERVER) : Backend :=
  { server := sv, in_use := true, active := true, sescmd_queue := [], execOk := true,
    writeOk := true, critval := 0 }

def ses0 : RSes :=
  { backends := [], current_master := none, target_node := none, sescmd_count := 0,
    expected_responses := 0, sent_sescmd := 0, sescmd_list := [], sescmd_responses := [],
    load_data_state := load_data_state_t.LOAD_DATA_INACTIVE, rses_load_data_sent := 0,
    have_tmp_tables := false, trx_active := false, trx_read_only := false,
    trx_ending := false, readonly_error_sent := false, rses_config := cfg0 }

/-- A session whose only backend is flagged primary but is not the cached
current primary (for instance after the monitor promoted a different server
than the one this session's write connection points at). -/
def exC1 : RSes := { ses0 with backends := [bk (srv "m" true false)] }

def exC1w : RSes := { ses0 with
  backends := [bk (srv "a" false true), bk (srv "b" false true)] }

def exC2 : RSes := ses0

def exHintsC3 : List HINT := [HINT.parameter ("max_slave_replication_lag2") 10]

def exC5 : RSes := { ses0 with
  backends := [bk (srv "p" true false)],
  rses_config := { cfg0 with max_sescmd_history := 1 } }

def exC6 : RSes := { ses0 with
  backends := [bk (srv "s1" false true)], target_node := some 0,
  trx_active := true, trx_read_only := true }

def exC7 : RSes := { ses0 with
  backends := [bk (srv "oldm" false false)], current_master := some 0,
  rses_config := { cfg0 with master_failure_mode := failure_mode.RW_ERROR_ON_WRITE } }

def exC8 : RSes := { ses0 with load_data_state := load_data_state_t.LOAD_DATA_ACTIVE }

def exC9 : RSes := { ses0 with backends := [bk (srv "m" true false)], current_master := none }

def pkt0 : Packet :=
  { non_empty := true, is_multi := false, is_query := true, op_is_load := false,
    is_read_tmp := false, creates_tmp := false, qtype := 0, hints := [],
    cmd := mysql_server_cmd.MYSQL_COM_QUERY, buflen := 0 }

def pktC8 : Packet :=
  { pkt0 with non_empty := false, qtype := QUERY_TYPE_WRITE, hints := [HINT.routeToSlave] }

/-! ## Helper lemmas about the session-write path -/

theorem rsw_go_backends (id : Nat) (exp : Bool) :
    ∀ (l : List Backend) (er : Int) (n low : Nat),
      (rsw_go id exp l er n low).1 =
        l.map (fun b =>
          if b.in_use then { b with sescmd_queue := b.sescmd_queue ++ [id] } else b) := by
  intro l
  induction l with
  | nil => intro er n low; rfl
  | cons b rest ih =>
    intro er n low
    by_cases hb : b.in_use <;> simp [rsw_go, hb, ih]

theorem rsw_go_nsucc (id : Nat) (exp : Bool) :
    ∀ (l : List Backend) (er : Int) (n low : Nat),
      (rsw_go id exp l er n low).2.2.1 =
        n + (l.filter (fun b => b.in_use && b.execOk)).length := by
  intro l
  induction l with
  | nil => intro er n low; rfl
  | cons b rest ih =>
    intro er n low
    by_cases hb : b.in_use <;> by_cases he : b.execOk <;>
      (simp [rsw_go, hb, he, ih, List.filter_cons]; try omega)

theorem rsw_go_er (id : Nat) (exp : Bool) :
    ∀ (l : List Backend) (er : Int) (n low : Nat),
      (rsw_go id exp l er n low).2.1 =
        er + (if exp then ((l.filter (fun b => b.in_use && b.execOk)).length : Int) else 0) := by
  intro l
  induction l with
  | nil => intro er n low; cases exp <;> simp [rsw_go]
  | cons b rest ih =>
    intro er n low
    by_cases hb : b.in_use <;> by_cases he : b.execOk <;> cases exp <;>
      (simp [rsw_go, hb, he, ih, List.filter_cons]; try omega)

theorem rsw_history_bound_count (s : RSes) :
    (rsw_history_bound s).sescmd_count = s.sescmd_count := by
  unfold rsw_history_bound; split_ifs <;> rfl

theorem rsw_history_bound_backends (s : RSes) :
    (rsw_history_bound s).backends = s.backends := by
  unfold rsw_history_bound; split_ifs <;> rfl

theorem rsw_history_bound_expected (s : RSes) :
    (rsw_history_bound s).expected_responses = s.expected_responses := by
  unfold rsw_history_bound; split_ifs <;> rfl

theorem rsw_history_bound_sent (s : RSes) :
    (rsw_history_bound s).sent_sescmd = s.sent_sescmd := by
  unfold rsw_history_bound; split_ifs <;> rfl

theorem rsw_history_bound_target_node (s : RSes) :
    (rsw_history_bound s).target_node = s.target_node := by
  unfold rsw_history_bound; split_ifs <;> rfl

theorem rsw_store_count (id low : Nat) (s : RSes) :
    (rsw_store id low s).sescmd_count = s.sescmd_count := by
  unfold rsw_store; split_ifs <;> rfl

theorem rsw_store_backends (id low : Nat) (s : RSes) :
    (rsw_store id low s).backends = s.backends := by
  unfold rsw_store; split_ifs <;> rfl

theorem rsw_store_expected (id low : Nat) (s : RSes) :
    (rsw_store id low s).expected_responses = s.expected_responses := by
  unfold rsw_store; split_ifs <;> rfl

theorem rsw_store_sent (id low : Nat) (s : RSes) :
    (rsw_store id low s).sent_sescmd = s.sent_sescmd := by
  unfold rsw_store; split_ifs <;> rfl

theorem rsw_store_target_node (id low : Nat) (s : RSes) :
    (rsw_store id low s).target_node = s.target_node := by
  unfold rsw_store; split_ifs <;> rfl

theorem rsw_store_config (id low : Nat) (s : RSes) :
    (rsw_store id low s).rses_config = s.rses_config := by
  unfold rsw_store; split_ifs <;> rfl

theorem rsw_mark_sent_count (id n : Nat) (s : RSes) :
    (rsw_mark_sent id n s).sescmd_count = s.sescmd_count := by
  unfold rsw_mark_sent; split_ifs <;> rfl

theorem rsw_mark_sent_backends (id n : Nat) (s : RSes) :
    (rsw_mark_sent id n s).backends = s.backends := by
  unfold rsw_mark_sent; split_ifs <;> rfl

theorem rsw_mark_sent_expected (id n : Nat) (s : RSes) :
    (rsw_mark_sent id n s).expected_responses = s.expected_responses := by
  unfold rsw_mark_sent; split_ifs <;> rfl

theorem rsw_mark_sent_target_node (id n : Nat) (s : RSes) :
    (rsw_mark_sent id n s).target_node = s.target_node := by
  unfold rsw_mark_sent; split_ifs <;> rfl

theorem rsw_mark_sent_config (id n : Nat) (s : RSes) :
    (rsw_mark_sent id n s).rses_config = s.rses_config := by
  unfold rsw_mark_sent; split_ifs <;> rfl

theorem rsw_mark_sent_list (id n : Nat) (s : RSes) :
    (rsw_mark_sent id n s).sescmd_list = s.sescmd_list := by
  unfold rsw_mark_sent; split_ifs <;> rfl

theorem rsw_mark_sent_sent (id n : Nat) (s : RSes) :
    (rsw_mark_sent id n s).sent_sescmd = if n ≠ 0 then id else s.sent_sescmd := by
  unfold rsw_mark_sent; split_ifs <;> rfl

/-- Shared success characterisation of the session-write path. -/
theorem route_session_write_fst_iff (s : RSes) (cmd : mysql_server_cmd) :
    (route_session_write s cmd).1 = true ↔
      ∃ b ∈ s.backends, b.in_use = true ∧ b.execOk = true := by
  have h := rsw_go_nsucc s.sescmd_count (command_will_respond cmd) s.backends
    s.expected_responses 0 s.sescmd_count
  simp only [route_session_write, h, Nat.zero_add, bne_iff_ne, ne_eq]
  constructor
  · intro hne
    rcases List.exists_mem_of_ne_nil (List.filter (fun b => b.in_use && b.execOk) s.backends)
        (fun hnil => hne (by rw [hnil]; rfl)) with ⟨b, hb⟩
    have hb2 := List.mem_filter.mp hb
    exact ⟨b, hb2.1, ((Bool.and_eq_true _ _).mp hb2.2).1, ((Bool.and_eq_true _ _).mp hb2.2).2⟩
  · rintro ⟨b, hmem, h1, h2⟩ hzero
    have hb : b ∈ List.filter (fun b => b.in_use && b.execOk) s.backends :=
      List.mem_filter.mpr ⟨hmem, by simp [h1, h2]⟩
    rw [List.length_eq_zero] at hzero
    rw [hzero] at hb
    exact absurd hb (List.not_mem_nil b)

/-- Shared target-node preservation of the session-write path. -/
theorem route_session_write_target_node (s : RSes) (cmd : mysql_server_cmd) :
    (route_session_write s cmd).2.target_node = s.target_node := by
  simp only [route_session_write, rsw_mark_sent_target_node, rsw_store_target_node,
    rsw_history_bound_target_node]

/-! ## Claims about the session-write path -/

/-- C4: for every session write routed through `route_session_write`, the new
entry's position is the pre-increment `sescmd_count`; the entry is enqueued on
every in-use backend (the executions on those backends being the per-backend
outcomes counted below); `expected_responses` grows by exactly one per backend
whose execution succeeded, and only when the command awaits a response; and
`sent_sescmd` is set to the entry's position precisely when at least one
backend succeeded. -/
theorem C4_route_session_write_effects (s : RSes) (cmd : mysql_server_cmd) :
    (route_session_write s cmd).2.sescmd_count = s.sescmd_count + 1 ∧
    (route_session_write s cmd).2.backends =
      s.backends.map (fun b =>
        if b.in_use then { b with sescmd_queue := b.sescmd_queue ++ [s.sescmd_count] }
        else b) ∧
    (route_session_write s cmd).2.expected_responses =
      s.expected_responses +
        (if command_will_respond cmd then
          ((s.backends.filter (fun b => b.in_use && b.execOk)).length : Int)
        else 0) ∧
    (route_session_write s cmd).2.sent_sescmd =
      (if (s.backends.filter (fun b => b.in_use && b.execOk)).length ≠ 0 then s.sescmd_count
       else s.sent_sescmd) := by
  refine ⟨?_, ?_, ?_, ?_⟩
  · simp only [route_session_write, rsw_mark_sent_count, rsw_store_count,
      rsw_history_bound_count]
  · simp only [route_session_write, rsw_mark_sent_backends, rsw_store_backends,
      rsw_history_bound_backends, rsw_go_backends]
  · simp only [route_session_write, rsw_mark_sent_expected, rsw_store_expected,
      rsw_history_bound_expected, rsw_go_er]
  · simp only [route_session_write, rsw_mark_sent_sent, rsw_store_sent,
      rsw_history_bound_sent, rsw_go_nsucc, Nat.zero_add]

/-- C10: `route_session_write` reports success exactly when at least one
in-use backend executed the session command successfully — so failures on
other in-use backends do not make it fail, and it fails when no backend is in
use at all. -/
theorem C10_route_session_write_success (s : RSes) (cmd : mysql_server_cmd) :
    (route_session_write s cmd).1 = true ↔
      ∃ b ∈ s.backends, b.in_use = true ∧ b.execOk = true :=
  route_session_write_fst_iff s cmd

/-- C5: a session write that brings `sescmd_count` to or above a positive
`max_sescmd_history` bound disables the session-command history and clears the
session-command log, while the success value returned to the caller is still
determined solely by the per-backend execution outcomes (no error from the
bound). -/
theorem C5_history_bound_degrades_gracefully (s : RSes) (cmd : mysql_server_cmd)
    (h1 : 0 < s.rses_config.max_sescmd_history)
    (h2 : s.rses_config.max_sescmd_history ≤ s.sescmd_count + 1) :
    (route_session_write s cmd).2.rses_config.disable_sescmd_history = true ∧
    (route_session_write s cmd).2.sescmd_list = [] ∧
    ((route_session_write s cmd).1 = true ↔
      ∃ b ∈ s.backends, b.in_use = true ∧ b.execOk = true) := by
  have hb : rsw_history_bound
      { s with
        sescmd_count := s.sescmd_count + 1,
        backends := (rsw_go s.sescmd_count (command_will_respond cmd) s.backends
          s.expected_responses 0 s.sescmd_count).1,
        expected_responses := (rsw_go s.sescmd_count (command_will_respond cmd) s.backends
          s.expected_responses 0 s.sescmd_count).2.1 } =
      { s with
        sescmd_count := s.sescmd_count + 1,
        backends := (rsw_go s.sescmd_count (command_will_respond cmd) s.backends
          s.expected_responses 0 s.sescmd_count).1,
        expected_responses := (rsw_go s.sescmd_count (command_will_respond cmd) s.backends
          s.expected_responses 0 s.sescmd_count).2.1,
        rses_config :=
          { s.rses_config with disable_sescmd_history := true, max_sescmd_history := 0 },
        sescmd_list := [] } := by
    unfold rsw_history_bound
    rw [if_pos ⟨h1, h2⟩]
  refine ⟨?_, ?_, route_session_write_fst_iff s cmd⟩
  · simp only [route_session_write, rsw_mark_sent_config, rsw_store_config, hb]
  · simp only [route_session_write, rsw_mark_sent_list, hb, rsw_store]
    simp

/-- Witness for C5 at a concrete session: bound 1, one in-use backend. -/
theorem C5_witness :
    (0 < exC5.rses_config.max_sescmd_history ∧
      exC5.rses_config.max_sescmd_history ≤ exC5.sescmd_count + 1) ∧
    ((route_session_write exC5 mysql_server_cmd.MYSQL_COM_QUERY).2.rses_config.disable_sescmd_history
        = true ∧
      (route_session_write exC5 mysql_server_cmd.MYSQL_COM_QUERY).2.sescmd_list = [] ∧
      ((route_session_write exC5 mysql_server_cmd.MYSQL_COM_QUERY).1 = true ↔
        ∃ b ∈ exC5.backends, b.in_use = true ∧ b.execOk = true)) :=
  ⟨⟨by decide, by decide⟩,
    C5_history_bound_degrades_gracefully exC5 mysql_server_cmd.MYSQL_COM_QUERY
      (by decide) (by decide)⟩

/-! ## Claims about the backend selector and the route-target resolver -/

theorem check_candidate_bref_eq (cb ib : Nat × Backend) :
    check_candidate_bref (some cb) (some ib) =
      if ib.2.critval < cb.2.critval then some ib else some cb := by
  simp only [check_candidate_bref, critCmp]
  split_ifs with h1 h2 <;> first | rfl | (exfalso; omega)

theorem slave_scan_eq_amended (mar : Bool) (cm : Option Nat) (rl : Int) :
    ∀ (l : List (Nat × Backend)) (cand : Option (Nat × Backend)),
      slave_scan mar cm rl l cand = amended_replica_scan mar cm rl l cand := by
  intro l
  induction l with
  | nil => intro cand; rfl
  | cons ib rest ih =>
    intro cand
    by_cases hskip : (ib.2.in_use && ib.2.active &&
        (SERVER_IS_MASTER ib.2.server || SERVER_IS_SLAVE ib.2.server)) = true
    · cases cand with
      | none =>
        by_cases hA : (SERVER_IS_MASTER ib.2.server && cm == some ib.1) = true <;>
          by_cases hB : lagOK rl ib.2 = true <;>
            simp [slave_scan, amended_replica_scan, hskip, hA, hB, ih]
      | some cb =>
        by_cases h2 : (SERVER_IS_MASTER cb.2.server && SERVER_IS_SLAVE ib.2.server &&
            lagOK rl ib.2 && !mar) = true <;>
          by_cases h3 : (SERVER_IS_SLAVE ib.2.server ||
              (mar && SERVER_IS_MASTER ib.2.server)) = true <;>
            by_cases h4 : lagOK rl ib.2 = true <;>
              simp [slave_scan, amended_replica_scan, hskip, h2, h3, h4, ih,
                check_candidate_bref_eq]
    · cases cand <;> simp [slave_scan, amended_replica_scan, hskip, ih]

/-- C1 counterexample: a session whose single backend is in use, active and
flagged primary but is not the cached current primary.  The code accepts it as
the replica-role candidate through the bare lag test; the claim's scan, which
only accepts the current primary or a replica within the lag bound, returns
nothing. -/
theorem C1_counterexample :
    get_target_backend exC1 backend_type_t.BE_SLAVE none MAX_RLAG_UNDEFINED ≠
      (claim_replica_scan exC1.rses_config.master_accept_reads exC1.current_master
        MAX_RLAG_UNDEFINED exC1.backends.enum none).map Prod.fst := by
  decide

/-- C1 (amended): outside the read-only-transaction short circuit, the
replica-role selector is exactly the insertion-order scan over in-use, active,
primary-or-replica handles in which, with no candidate yet, the current
primary (still flagged primary) is accepted outright and any other handle is
accepted by the lag test alone — one flagged primary included; a primary
candidate is replaced by any lag-qualifying replica when `master_accept_reads`
is false; otherwise a lag-qualifying challenger that is a replica — or a
primary while `master_accept_reads` is true — competes with the candidate on
the selection-criterion value, the strictly smaller value winning and equal
values keeping the earlier-inserted handle. -/
theorem C1_replica_selection_amended (s : RSes) (max_rlag : Int)
    (h : (s.target_node.isSome && s.trx_read_only) = false) :
    get_target_backend s backend_type_t.BE_SLAVE none max_rlag =
      (amended_replica_scan s.rses_config.master_accept_reads s.current_master max_rlag
        s.backends.enum none).map Prod.fst := by
  have key : get_target_backend s backend_type_t.BE_SLAVE none max_rlag =
      (slave_scan s.rses_config.master_accept_reads s.current_master max_rlag
        s.backends.enum none).map Prod.fst := by
    unfold get_target_backend
    rw [if_neg (show ¬((s.target_node.isSome && s.trx_read_only) = true) by simp [h])]
    rfl
  rw [key, slave_scan_eq_amended]

/-- Witness for the amended C1 at a concrete session with two replicas. -/
theorem C1_witness :
    ((exC1w.target_node.isSome && exC1w.trx_read_only) = false) ∧
    get_target_backend exC1w backend_type_t.BE_SLAVE none 5 =
      (amended_replica_scan exC1w.rses_config.master_accept_reads exC1w.current_master 5
        exC1w.backends.enum none).map Prod.fst :=
  ⟨by decide, C1_replica_selection_amended exC1w 5 (by decide)⟩

/-- C2: evaluation of `get_route_target` at a session-write-plus-READ query
with no load active, no pinned node and no hints.  The PRIMARY override of
lines 561-574 is followed by the unconditional `target |= TARGET_ALL` of line
575, so the resolver returns PRIMARY with the ALL bit still set — not exactly
PRIMARY as the claim (and the adjacent warning text) state. -/
theorem C2_session_write_read_eval :
    get_route_target exC2 (QUERY_TYPE_SESSION_WRITE ||| QUERY_TYPE_READ) [] =
      (TARGET_MASTER ||| TARGET_ALL) ∧
    ¬ get_route_target exC2 (QUERY_TYPE_SESSION_WRITE ||| QUERY_TYPE_READ) [] =
      TARGET_MASTER :=
  ⟨by decide, by decide⟩

theorem amended_foldl_stopped :
    ∀ (hs : List HINT) (t : Nat), hs.foldl amended_hint_step (t, true) = (t, true) := by
  intro hs
  induction hs with
  | nil => intro t; rfl
  | cons h rest ih => intro t; simp [List.foldl_cons, amended_hint_step, ih]

/-- C3 counterexample: a parameter hint whose key is
`max_slave_replication_lag2` — not `max_slave_replication_lag` — still ORs in
the RLAG_MAX bit, because the code compares only the
`strlen("max_slave_replication_lag")`-character prefix case-insensitively;
the claim's hint processing, which leaves the target unchanged for any
parameter key other than `max_slave_replication_lag`, disagrees. -/
theorem C3_counterexample :
    ¬ process_hints TARGET_SLAVE exHintsC3 = claim_process_hints TARGET_SLAVE exHintsC3 := by
  decide

/-- C3 (amended): the hint loop processes hints in list order — route-to-
primary replaces the target with PRIMARY and stops, route-to-named-server ORs
in the NAMED_SERVER bit, route-to-replica replaces the target with SLAVE,
route-to-uptodate-server and route-to-all leave it unchanged, and a parameter
hint ORs in the RLAG_MAX bit exactly when its key begins, case-insensitively,
with `max_slave_replication_lag`, leaving the target unchanged otherwise. -/
theorem C3_hint_rules_amended (t : Nat) (hs : List HINT) :
    process_hints t hs = amended_process_hints t hs := by
  induction hs generalizing t with
  | nil => rfl
  | cons h rest ih =>
    cases h with
    | routeToMaster =>
      simp [process_hints, amended_process_hints, List.foldl_cons, amended_hint_step,
        amended_foldl_stopped]
    | routeToNamedServer d =>
      simp only [process_hints, amended_process_hints, List.foldl_cons]
      rw [show amended_hint_step (t, false) (HINT.routeToNamedServer d) =
        (t ||| TARGET_NAMED_SERVER, false) from rfl]
      exact ih (t ||| TARGET_NAMED_SERVER)
    | routeToSlave =>
      simp only [process_hints, amended_process_hints, List.foldl_cons]
      rw [show amended_hint_step (t, false) HINT.routeToSlave = (TARGET_SLAVE, false) from rfl]
      exact ih TARGET_SLAVE
    | routeToUptodateServer =>
      simp only [process_hints, amended_process_hints, List.foldl_cons]
      rw [show amended_hint_step (t, false) HINT.routeToUptodateServer = (t, false) from rfl]
      exact ih t
    | routeToAll =>
      simp only [process_hints, amended_process_hints, List.foldl_cons]
      rw [show amended_hint_step (t, false) HINT.routeToAll = (t, false) from rfl]
      exact ih t
    | parameter d v =>
      by_cases hd : startsWithCI msrl_key d = true
      · simp only [process_hints, amended_process_hints, List.foldl_cons]
        rw [show amended_hint_step (t, false) (HINT.parameter d v) =
          (t ||| TARGET_RLAG_MAX, false) by simp [amended_hint_step, hd]]
        rw [if_pos hd]
        exact ih (t ||| TARGET_RLAG_MAX)
      · simp only [process_hints, amended_process_hints, List.foldl_cons]
        rw [show amended_hint_step (t, false) (HINT.parameter d v) = (t, false) by
          simp [amended_hint_step, hd]]
        rw [if_neg hd]
        exact ih t

/-! ## Claims about the primary-target path and the LDLI terminator -/

/-- C7: with `master_failure_mode = error-on-write`, whenever the selector
does not return the session's cached current primary, `handle_master_is_target`
synthesises a read-only error packet for the client, closes the in-use
current-primary handle if there is one, and reports success so that the
session stays open. -/
theorem C7_error_on_write_policy (s : RSes)
    (h1 : s.rses_config.master_failure_mode = failure_mode.RW_ERROR_ON_WRITE)
    (h2 : ((get_target_backend s backend_type_t.BE_MASTER none MAX_RLAG_UNDEFINED).isSome &&
        (get_target_backend s backend_type_t.BE_MASTER none MAX_RLAG_UNDEFINED ==
          s.current_master)) = false) :
    (handle_master_is_target s).1 = true ∧
    (handle_master_is_target s).2.2.readonly_error_sent = true ∧
    (handle_master_is_target s).2.2.backends =
      (match s.current_master with
       | some ci =>
         if ((s.backends.get? ci).map Backend.in_use) == some true then close_at ci s.backends
         else s.backends
       | none => s.backends) := by
  have hmode : (s.rses_config.master_failure_mode == failure_mode.RW_ERROR_ON_WRITE) = true := by
    rw [h1]
    rfl
  simp only [handle_master_is_target, send_readonly_error]
  rw [if_neg (by rw [h2]; simp), if_pos hmode]
  refine ⟨rfl, ?_, ?_⟩
  · rcases hcm : s.current_master with _ | ci
    · rfl
    · dsimp only
      split_ifs <;> rfl
  · rcases hcm : s.current_master with _ | ci
    · rfl
    · dsimp only
      split_ifs <;> rfl

/-- Witness for C7: the session's only backend lost its primary flag, so the
selector finds no primary while the cached current primary is still in use. -/
theorem C7_witness :
    (handle_master_is_target exC7).1 = true ∧
    (handle_master_is_target exC7).2.2.readonly_error_sent = true ∧
    (handle_master_is_target exC7).2.2.backends =
      (match exC7.current_master with
       | some ci =>
         if ((exC7.backends.get? ci).map Backend.in_use) == some true then
           close_at ci exC7.backends
         else exC7.backends
       | none => exC7.backends) :=
  C7_error_on_write_policy exC7 (by decide) (by decide)

/-- C8: an empty client packet is the LOAD DATA LOCAL INFILE terminator —
while the load state is ACTIVE, the target-resolution phase of
`route_single_stmt` yields exactly `TARGET_MASTER` and moves the load state to
`END`, for every query type and hint chain (classification and hint
processing are skipped). -/
theorem C8_empty_packet_ldli_terminator (s : RSes) (p : Packet)
    (h1 : p.non_empty = false)
    (_h2 : s.load_data_state = load_data_state_t.LOAD_DATA_ACTIVE) :
    route_target_phase s p =
      (TARGET_MASTER, { s with load_data_state := load_data_state_t.LOAD_DATA_END }) := by
  unfold route_target_phase
  rw [if_neg (by simp [h1])]

/-- Witness for C8: an empty packet carrying a (skipped) WRITE query type and
a (skipped) route-to-replica hint still resolves to the master and ends the
load. -/
theorem C8_witness :
    route_target_phase exC8 pktC8 =
      (TARGET_MASTER, { exC8 with load_data_state := load_data_state_t.LOAD_DATA_END }) :=
  C8_empty_packet_ldli_terminator exC8 pktC8 (by decide) (by decide)

/-- C9 (implicit): when the primary-role selector succeeds but the chosen
handle is not the cached `current_master`, and the failure mode is not
error-on-write, `handle_master_is_target` fails — a write is refused even
though a valid in-use root primary exists. -/
theorem C9_write_requires_cached_master (s : RSes) (j : Nat)
    (h1 : get_target_backend s backend_type_t.BE_MASTER none MAX_RLAG_UNDEFINED = some j)
    (h2 : ((some j : Option Nat) == s.current_master) = false)
    (h3 : ¬ s.rses_config.master_failure_mode = failure_mode.RW_ERROR_ON_WRITE) :
    (handle_master_is_target s).1 = false := by
  have hm : (s.rses_config.master_failure_mode == failure_mode.RW_ERROR_ON_WRITE) = false := by
    cases hmode : s.rses_config.master_failure_mode with
    | RW_FAIL_INSTANTLY => rfl
    | RW_FAIL_ON_WRITE => rfl
    | RW_ERROR_ON_WRITE => exact absurd hmode h3
  have c1 : ((some j : Option Nat).isSome && ((some j : Option Nat) == s.current_master))
      = false := by
    rw [h2]
    rfl
  simp only [handle_master_is_target]
  rw [h1, if_neg (by rw [c1]; simp), if_neg (by rw [hm]; simp)]

/-- Witness for C9: a session created without a master connection whose
backend roster now contains a valid primary. -/
theorem C9_witness : (handle_master_is_target exC9).1 = false :=
  C9_write_requires_cached_master exC9 0 (by decide) (by decide) (by decide)

/-! ## Helper lemmas about the read-only-transaction forced node -/

theorem gtb_pinned (s : RSes) (t : Nat) (hro : s.trx_read_only = true)
    (htn : s.target_node = some t) (btype : backend_type_t) (name : Option String)
    (max_rlag : Int) :
    get_target_backend s btype name max_rlag = some t := by
  unfold get_target_backend
  rw [htn, hro]
  simp

theorem hmtl_ro (s : RSes) (p : Packet) :
    (handle_multi_temp_and_load s p).2.trx_read_only = s.trx_read_only := by
  unfold handle_multi_temp_and_load
  rcases hcm : s.current_master with _ | c <;> dsimp only <;> split_ifs <;> rfl

theorem hmtl_ending (s : RSes) (p : Packet) :
    (handle_multi_temp_and_load s p).2.trx_ending = s.trx_ending := by
  unfold handle_multi_temp_and_load
  rcases hcm : s.current_master with _ | c <;> dsimp only <;> split_ifs <;> rfl

theorem hmtl_tn_some (s : RSes) (p : Packet) (t : Nat) (htn : s.target_node = some t) :
    ∃ u, (handle_multi_temp_and_load s p).2.target_node = some u := by
  unfold handle_multi_temp_and_load
  rcases hcm : s.current_master with _ | c <;> dsimp only <;> split_ifs <;>
    first | exact ⟨c, rfl⟩ | exact ⟨t, htn⟩

theorem hmtl_tn_not_multi (s : RSes) (p : Packet) (h : p.is_multi = false) :
    (handle_multi_temp_and_load s p).2.target_node = s.target_node := by
  unfold handle_multi_temp_and_load
  rcases hcm : s.current_master with _ | c <;> dsimp only <;> split_ifs <;>
    first | rfl | simp_all

theorem phase_ro (s : RSes) (p : Packet) :
    (route_target_phase s p).2.trx_read_only = s.trx_read_only := by
  unfold route_target_phase
  split_ifs
  · exact hmtl_ro s p
  · rfl

theorem phase_ending (s : RSes) (p : Packet) :
    (route_target_phase s p).2.trx_ending = s.trx_ending := by
  unfold route_target_phase
  split_ifs
  · exact hmtl_ending s p
  · rfl

theorem phase_tn_some (s : RSes) (p : Packet) (t : Nat) (htn : s.target_node = some t) :
    ∃ u, (route_target_phase s p).2.target_node = some u := by
  unfold route_target_phase
  split_ifs
  · exact hmtl_tn_some s p t htn
  · exact ⟨t, htn⟩

theorem phase_tn_not_multi (s : RSes) (p : Packet) (h : p.is_multi = false) :
    (route_target_phase s p).2.target_node = s.target_node := by
  unfold route_target_phase
  split_ifs
  · exact hmtl_tn_not_multi s p h
  · rfl

theorem hmist_preserved (s : RSes) :
    (handle_master_is_target s).2.2.target_node = s.target_node ∧
    (handle_master_is_target s).2.2.current_master = s.current_master ∧
    (handle_master_is_target s).2.2.trx_read_only = s.trx_read_only ∧
    (handle_master_is_target s).2.2.trx_ending = s.trx_ending ∧
    (handle_master_is_target s).2.2.rses_config = s.rses_config := by
  unfold handle_master_is_target send_readonly_error
  rcases hcm : s.current_master with _ | ci <;> dsimp only <;> split_ifs <;>
    first
    | exact ⟨rfl, rfl, rfl, rfl, rfl⟩
    | exact ⟨rfl, hcm, rfl, rfl, rfl⟩

theorem hgt_track_tn (s1 : RSes) (re : Bool) :
    (hgt_track s1 re).target_node = s1.target_node := by
  unfold hgt_track
  dsimp only
  split_ifs <;> rfl

theorem hgt_track_ending (s1 : RSes) (re : Bool) :
    (hgt_track s1 re).trx_ending = s1.trx_ending := by
  unfold hgt_track
  dsimp only
  split_ifs <;> rfl

theorem hgt_after_pin_keeps (s1 : RSes) (p : Packet) (i u : Nat)
    (htn : s1.target_node = some u) (hend : s1.trx_ending = false) :
    (hgt_after_pin s1 p i).2.target_node = some u := by
  unfold hgt_after_pin
  rcases hg : s1.backends.get? i with _ | b
  · exact htn
  · dsimp only
    split_ifs with hw
    · unfold hgt_unpin
      rw [if_neg (by simp [hgt_track_ending, hend])]
      rw [hgt_track_tn]
      exact htn
    · exact htn

theorem hgt_keeps (s : RSes) (p : Packet) (i u : Nat)
    (htn : s.target_node = some u) (hend : s.trx_ending = false) :
    (handle_got_target s p i).2.target_node = some u := by
  unfold handle_got_target
  rw [show hgt_pin s i = s by unfold hgt_pin; rw [if_neg (by simp [htn])]]
  exact hgt_after_pin_keeps s p i u htn hend

theorem hgt_pins (s : RSes) (p : Packet) (i : Nat)
    (htn : s.target_node = none) (hro : s.trx_read_only = true) (hend : s.trx_ending = false) :
    (handle_got_target s p i).2.target_node = some i := by
  unfold handle_got_target
  rw [show hgt_pin s i = { s with target_node := some i } by
    unfold hgt_pin
    rw [if_pos (by rw [htn, hro]; rfl)]]
  exact hgt_after_pin_keeps { s with target_node := some i } p i i rfl hend

theorem rss_after_select_some_true (s2 : RSes) (p : Packet) (i : Nat) :
    rss_after_select s2 p true (some i) = (true, some i, (handle_got_target s2 p i).2) := rfl

theorem rss_after_select_some_false (s2 : RSes) (p : Packet) (i : Nat) :
    rss_after_select s2 p false (some i) = (false, none, s2) := rfl

theorem rss_after_select_none (s2 : RSes) (p : Packet) (b : Bool) :
    rss_after_select s2 p b none = (b, none, s2) := by
  cases b <;> rfl

theorem rss_select_pinned (s1 : RSes) (p : Packet) (rt : Nat) (u : Nat)
    (hro : s1.trx_read_only = true) (htn : s1.target_node = some u) :
    (((rss_select s1 p rt).2.1 = some u ∧
        ((rss_select s1 p rt).2.2.target_node = some u ∨
          ((rss_select s1 p rt).2.2.target_node = none ∧
           (rss_select s1 p rt).1 = true))) ∨
      ((rss_select s1 p rt).2.1 = none ∧
        (rss_select s1 p rt).2.2.target_node = some u)) ∧
    (rss_select s1 p rt).2.2.trx_read_only = true ∧
    (rss_select s1 p rt).2.2.trx_ending = s1.trx_ending := by
  unfold rss_select
  by_cases hN : (((rt &&& TARGET_NAMED_SERVER) != 0) || ((rt &&& TARGET_RLAG_MAX) != 0)) = true
  · rw [if_pos hN]
    have hh : handle_hinted_target s1 rt p.hints = some u := by
      unfold handle_hinted_target
      exact gtb_pinned s1 u hro htn _ _ _
    rw [hh]
    exact ⟨Or.inl ⟨rfl, Or.inl htn⟩, hro, rfl⟩
  · rw [if_neg hN]
    by_cases hS : ((rt &&& TARGET_SLAVE) != 0) = true
    · rw [if_pos hS]
      have hh : handle_slave_is_target s1 = some u := by
        unfold handle_slave_is_target
        exact gtb_pinned s1 u hro htn _ _ _
      rw [hh]
      exact ⟨Or.inl ⟨rfl, Or.inl htn⟩, hro, rfl⟩
    · rw [if_neg hS]
      by_cases hM : ((rt &&& TARGET_MASTER) != 0) = true
      · rw [if_pos hM]
        have hg := gtb_pinned s1 u hro htn backend_type_t.BE_MASTER none MAX_RLAG_UNDEFINED
        obtain ⟨hmt, hmc, hmro, hme, _⟩ := hmist_preserved s1
        have hm21 : (handle_master_is_target s1).2.1 = some u := by
          unfold handle_master_is_target
          rw [hg]
          dsimp only
          split_ifs <;> rfl
        by_cases hreset : (!(handle_master_is_target s1).2.2.rses_config.strict_multi_stmt &&
            ((handle_master_is_target s1).2.2.target_node ==
              (handle_master_is_target s1).2.2.current_master)) = true
        · rw [if_pos hreset]
          have hcond : ((some u : Option Nat) == s1.current_master) = true := by
            have h2 := ((Bool.and_eq_true _ _).mp hreset).2
            rw [hmt, htn, hmc] at h2
            exact h2
          have hm1 : (handle_master_is_target s1).1 = true := by
            unfold handle_master_is_target
            rw [hg]
            dsimp only
            rw [if_pos (show (((some u : Option Nat)).isSome &&
                ((some u : Option Nat) == s1.current_master)) = true by rw [hcond]; rfl)]
          refine ⟨Or.inl ⟨hm21, Or.inr ⟨rfl, hm1⟩⟩, ?_, ?_⟩
          · show (handle_master_is_target s1).2.2.trx_read_only = true
            rw [hmro]; exact hro
          · show (handle_master_is_target s1).2.2.trx_ending = s1.trx_ending
            exact hme
        · rw [if_neg hreset]
          refine ⟨Or.inl ⟨hm21, Or.inl (by rw [hmt]; exact htn)⟩, ?_, ?_⟩
          · rw [hmro]; exact hro
          · exact hme
      · rw [if_neg hM]
        exact ⟨Or.inr ⟨rfl, htn⟩, hro, rfl⟩

/-- C6: while the session's transaction is read-only and a forced node
`target_node = t` is set, (1) every call of the backend selector returns `t`
whatever the requested role, name or lag bound; (2) routing any statement
leaves the session with a forced node still set whenever the transaction is
not ending — the forced node is cleared only by a transaction that is ending;
and (3) for a non-multi-statement packet, whatever single backend the
statement is forwarded to is exactly `t`, so every individually-forwarded
statement of the transaction goes to the forced node. -/
theorem C6_readonly_trx_pins_target (s : RSes) (t : Nat)
    (hro : s.trx_read_only = true) (htn : s.target_node = some t) :
    (∀ (btype : backend_type_t) (name : Option String) (max_rlag : Int),
        get_target_backend s btype name max_rlag = some t) ∧
    (∀ p : Packet, s.trx_ending = false →
        ¬ (route_single_stmt s p).2.2.target_node = none) ∧
    (∀ p : Packet, p.is_multi = false →
        (route_single_stmt s p).2.1 = none ∨ (route_single_stmt s p).2.1 = some t) := by
  refine ⟨fun btype name max_rlag => gtb_pinned s t hro htn btype name max_rlag, ?_, ?_⟩
  · intro p hend
    obtain ⟨u, hu⟩ := phase_tn_some s p t htn
    have h1ro : (route_target_phase s p).2.trx_read_only = true := by
      rw [phase_ro]; exact hro
    have h1end : (route_target_phase s p).2.trx_ending = false := by
      rw [phase_ending]; exact hend
    unfold route_single_stmt rss_dispatch
    by_cases hALL : ((((route_target_phase s p).1 &&& TARGET_ALL) != 0)) = true
    · rw [if_pos hALL]
      dsimp only
      rw [route_session_write_target_node, hu]
      simp
    · rw [if_neg hALL]
      obtain ⟨hsel, hro2, hend2⟩ :=
        rss_select_pinned (route_target_phase s p).2 p (route_target_phase s p).1 u h1ro hu
      have hend2' : (rss_select (route_target_phase s p).2 p
          (route_target_phase s p).1).2.2.trx_ending = false := by
        rw [hend2]; exact h1end
      rcases hsel with ⟨htgt, hstate⟩ | ⟨htgt, hstate⟩
      · cases hd1 : (rss_select (route_target_phase s p).2 p (route_target_phase s p).1).1 with
        | true =>
          rw [htgt, rss_after_select_some_true]
          dsimp only
          rcases hstate with hsu | ⟨hsn, _⟩
          · rw [hgt_keeps _ p u u hsu hend2']
            simp
          · rw [hgt_pins _ p u hsn hro2 hend2']
            simp
        | false =>
          rw [htgt, rss_after_select_some_false]
          dsimp only
          rcases hstate with hsu | ⟨_, hs1⟩
          · rw [hsu]; simp
          · rw [hd1] at hs1; simp at hs1
      · rw [htgt, rss_after_select_none]
        dsimp only
        rw [hstate]; simp
  · intro p hmulti
    have hu : (route_target_phase s p).2.target_node = some t := by
      rw [phase_tn_not_multi s p hmulti]; exact htn
    have h1ro : (route_target_phase s p).2.trx_read_only = true := by
      rw [phase_ro]; exact hro
    unfold route_single_stmt rss_dispatch
    by_cases hALL : ((((route_target_phase s p).1 &&& TARGET_ALL) != 0)) = true
    · rw [if_pos hALL]
      exact Or.inl rfl
    · rw [if_neg hALL]
      obtain ⟨hsel, _, _⟩ :=
        rss_select_pinned (route_target_phase s p).2 p (route_target_phase s p).1 t h1ro hu
      rcases hsel with ⟨htgt, _⟩ | ⟨htgt, _⟩
      · cases hd1 : (rss_select (route_target_phase s p).2 p (route_target_phase s p).1).1 with
        | true =>
          rw [htgt, rss_after_select_some_true]
          exact Or.inr rfl
        | false =>
          rw [htgt, rss_after_select_some_false]
          exact Or.inl rfl
      · rw [htgt, rss_after_select_none]
        exact Or.inl rfl

/-- Witness for C6 at a concrete pinned session: the selector returns the
pinned replica for a primary-role request, a routed read keeps the forced
node set, and the read is forwarded to the pinned replica. -/
theorem C6_witness :
    get_target_backend exC6 backend_type_t.BE_MASTER none MAX_RLAG_UNDEFINED = some 0 ∧
    ¬ (route_single_stmt exC6 { pkt0 with qtype := QUERY_TYPE_READ }).2.2.target_node = none ∧
    ((route_single_stmt exC6 { pkt0 with qtype := QUERY_TYPE_READ }).2.1 = none ∨
      (route_single_stmt exC6 { pkt0 with qtype := QUERY_TYPE_READ }).2.1 = some 0) :=
  ⟨(C6_readonly_trx_pins_target exC6 0 (by decide) (by decide)).1
      backend_type_t.BE_MASTER none MAX_RLAG_UNDEFINED,
   (C6_readonly_trx_pins_target exC6 0 (by decide) (by decide)).2.1
      { pkt0 with qtype := QUERY_TYPE_READ } (by decide),
   (C6_readonly_trx_pins_target exC6 0 (by decide) (by decide)).2.2
      { pkt0 with qtype := QUERY_TYPE_READ } (by decide)⟩
